import Mathlib

/-
Verification development for the firesafe-embedded repository.

The repository contains:
  * two variants of the actuator firmware (actuator_esp8266.ino holds both,
    separated by a document separator): variant 1 handles manual and
    automatic modes; variant 2 ignores mode and manual_position and moves
    the servo from its main loop;
  * the sensor node firmware (sensors_esp8266.ino): DHT11 + MQ2 reading,
    MQ2 calibration, and reporting to the cloud;
  * the dashboard threshold check (sensor_monitor.vue): checkThreshold.

Numeric model: servo positions and C++ ints are Lean Int (the values stay
far from any machine-width boundary, so wrap-around never matters here);
floating-point sensor and threshold values are modelled as rationals, with
none : Option standing for a NaN DHT reading.  ArduinoJson yields 0 for a
missing integer field and false for a missing boolean field, so CloudDoc
carries total fields holding whatever the deserializer produced.
-/

namespace FireSafe

/-- The three globals mutated by moveToNextPosition in both firmware
variants: currentPosition, isInitialPhase, movingUp. -/
structure SweepState where
  currentPosition : Int
  isInitialPhase : Bool
  movingUp : Bool
  deriving DecidableEq, Repr

/-- moveToNextPosition from actuator_esp8266.ino (identical in both
variants).  Returns the updated sweep state together with the single
value written to the servo (myServo.write(nextPosition)). -/
def moveToNextPosition (s : SweepState) : SweepState × Int :=
  if s.isInitialPhase then
    if s.currentPosition > 0 then
      let next := s.currentPosition - 30
      ({ s with currentPosition := next }, next)
    else
      ({ currentPosition := 30, isInitialPhase := false, movingUp := true }, 30)
  else
    if s.movingUp then
      if s.currentPosition < 180 then
        let raw := s.currentPosition + 30
        let next := if raw > 180 then 180 else raw
        ({ s with currentPosition := next }, next)
      else
        ({ s with currentPosition := 150, movingUp := false }, 150)
    else
      if s.currentPosition > 0 then
        let raw := s.currentPosition - 30
        let next := if raw < 0 then 0 else raw
        ({ s with currentPosition := next }, next)
      else
        ({ s with currentPosition := 30, movingUp := true }, 30)

/-- Optional current_readings block of the cloud response; display-only in
both firmware variants (printed to Serial, never stored). -/
structure Readings where
  temperature : ℚ
  humidity : ℚ
  gas : ℚ
  deriving DecidableEq, Repr

/-- A deserialized cloud response, as ArduinoJson presents it to
parseCloudCommand: absent integer fields read as 0, absent booleans as
false, absent strings compare unequal to both "manual" and "automatic". -/
structure CloudDoc where
  success : Bool
  mode : String
  command : String
  manual_position : Int
  thresholds_met : Bool
  current_readings : Option Readings
  deriving DecidableEq, Repr

/-- Outcome of one HTTP poll in checkCloudCommand: the GET failed
(httpResponseCode <= 0), the body failed to deserialize, or a parsed
document. -/
inductive Poll where
  | transportError : Poll
  | parseError : Poll
  | payload : CloudDoc → Poll
  deriving DecidableEq, Repr

namespace V1

/-- Globals of actuator firmware variant 1: currentMode, currentPosition,
isInitialPhase, movingUp, servoShouldMove. -/
structure State where
  currentMode : String
  sweep : SweepState
  servoShouldMove : Bool
  deriving DecidableEq, Repr

/-- Cold-start values of variant 1 after setup (initializeServo writes 90
and sets currentPosition = 90). -/
def initState : State :=
  { currentMode := "automatic"
    sweep := { currentPosition := 90, isInitialPhase := true, movingUp := true }
    servoShouldMove := true }

/-- parseCloudCommand of variant 1, applied to an already-fetched body.
Returns the new state and the list of servo writes performed. -/
def parseCloudCommand (s : State) (body : Poll) : State × List Int :=
  match body with
  | .transportError => (s, [])
  | .parseError => (s, [])
  | .payload d =>
    if d.success then
      let s1 := if d.mode == s.currentMode then s else { s with currentMode := d.mode }
      if d.mode == "manual" then
        if d.manual_position == s1.sweep.currentPosition then
          (s1, [])
        else
          ({ s1 with sweep := { s1.sweep with currentPosition := d.manual_position } },
           [d.manual_position])
      else if d.mode == "automatic" then
        if d.command == "stop" then
          ({ s1 with servoShouldMove := false }, [])
        else if d.command == "move" then
          let s2 := { s1 with servoShouldMove := true }
          let m := moveToNextPosition s2.sweep
          ({ s2 with sweep := m.1 }, [m.2])
        else
          (s1, [])
      else
        (s1, [])
    else
      (s, [])

/-- checkCloudCommand of variant 1: on an HTTP error it logs
"Continuing in current mode" and changes nothing; otherwise it parses the
response. -/
def checkCloudCommand (s : State) (p : Poll) : State × List Int :=
  match p with
  | .transportError => (s, [])
  | body => parseCloudCommand s body

/-- State component of one variant-1 loop tick (the variant-1 loop only
calls checkCloudCommand; servo motion happens inside parseCloudCommand). -/
def tick (s : State) (p : Poll) : State :=
  (checkCloudCommand s p).1

/-- Run variant 1 over a sequence of poll outcomes, accumulating every
servo write in order. -/
def run (s : State) : List Poll → State × List Int
  | [] => (s, [])
  | p :: rest =>
    let r := checkCloudCommand s p
    let rr := run r.1 rest
    (rr.1, r.2 ++ rr.2)

/-- All states visited while processing a sequence of poll outcomes,
starting state included. -/
def states (s : State) (ps : List Poll) : List State :=
  ps.scanl tick s

end V1

namespace V2

/-- Globals of actuator firmware variant 2: currentPosition,
isInitialPhase, movingUp, servoShouldMove (no mode variable). -/
structure State where
  sweep : SweepState
  servoShouldMove : Bool
  deriving DecidableEq, Repr

/-- Cold-start values of variant 2 after setup. -/
def initState : State :=
  { sweep := { currentPosition := 90, isInitialPhase := true, movingUp := true }
    servoShouldMove := true }

/-- parseCloudCommand of variant 2: reads only success and command
(thresholds_met and current_readings are printed, mode and manual_position
are never read); on success == false it forces servoShouldMove = true. -/
def parseCloudCommand (s : State) (body : Poll) : State :=
  match body with
  | .transportError => s
  | .parseError => s
  | .payload d =>
    if d.success then
      if d.command == "stop" then
        { s with servoShouldMove := false }
      else if d.command == "move" then
        { s with servoShouldMove := true }
      else
        s
    else
      { s with servoShouldMove := true }

/-- checkCloudCommand of variant 2: on an HTTP error it logs
"Defaulting to MOVE mode" and sets servoShouldMove = true; otherwise it
parses the response. -/
def checkCloudCommand (s : State) (p : Poll) : State :=
  match p with
  | .transportError => { s with servoShouldMove := true }
  | body => parseCloudCommand s body

/-- One variant-2 loop tick: checkCloudCommand, then moveToNextPosition
when servoShouldMove holds.  Returns the new state and the servo writes. -/
def tick (s : State) (p : Poll) : State × List Int :=
  let s1 := checkCloudCommand s p
  if s1.servoShouldMove then
    let m := moveToNextPosition s1.sweep
    ({ s1 with sweep := m.1 }, [m.2])
  else
    (s1, [])

end V2

namespace Sensor

/-- Globals of sensors_esp8266.ino.  temperature and humidity come from
the DHT as floats that may be NaN; none models a NaN value. -/
structure State where
  temperature : Option ℚ
  humidity : Option ℚ
  mq2Value : Int
  isCalibrated : Bool
  mq2Baseline : ℚ
  deriving DecidableEq, Repr

/-- Global initializers of sensors_esp8266.ino. -/
def initState : State :=
  { temperature := some 0, humidity := some 0, mq2Value := 0
    isCalibrated := false, mq2Baseline := 0 }

/-- readSensors: the DHT results are assigned to the globals before the
isnan check, which only prints a warning, so an invalid (none) reading
overwrites the stored values; the MQ2 value is stored unconditionally. -/
def readSensors (s : State) (t h : Option ℚ) (g : Int) : State :=
  { s with humidity := h, temperature := t, mq2Value := g }

/-- The JSON payload sendDataToCloud posts: sensor_1 = temperature,
sensor_2 = humidity, sensor_3 = mq2Value. -/
structure Payload where
  sensor_1 : Option ℚ
  sensor_2 : Option ℚ
  sensor_3 : Int
  deriving DecidableEq, Repr

/-- sendDataToCloud: returns the published payload, or none when the
isCalibrated guard makes it return early without any network send. -/
def sendDataToCloud (s : State) : Option Payload :=
  if s.isCalibrated then
    some { sensor_1 := s.temperature, sensor_2 := s.humidity, sensor_3 := s.mq2Value }
  else
    none

/-- calibrateSensors: averages the warm-up MQ2 samples into mq2Baseline
and only then sets isCalibrated = true. -/
def calibrateSensors (s : State) (samples : List Int) : State :=
  { s with
    mq2Baseline := ((samples.sum : Int) : ℚ) / (samples.length : ℚ)
    isCalibrated := true }

/-- The two state-changing actions of the sensor node: one loop iteration
(readSensors then sendDataToCloud) with the given raw inputs, or the
calibrateSensors call made from setup. -/
inductive Action where
  | tick : Option ℚ → Option ℚ → Int → Action
  | calibrate : List Int → Action
  deriving DecidableEq, Repr

/-- Apply one action; the second component is the payload published by
that action, if any. -/
def step (s : State) (a : Action) : State × Option Payload :=
  match a with
  | .tick t h g =>
    let s1 := readSensors s t h g
    (s1, sendDataToCloud s1)
  | .calibrate samples => (calibrateSensors s samples, none)

/-- Run the sensor node over a list of actions, accumulating every
published payload in order. -/
def run (s : State) : List Action → State × List Payload
  | [] => (s, [])
  | a :: rest =>
    let r := step s a
    let rr := run r.1 rest
    (rr.1, r.2.toList ++ rr.2)

/-- Whether an action is the calibrateSensors call. -/
def Action.isCalibrate : Action → Bool
  | .calibrate _ => true
  | .tick _ _ _ => false

end Sensor

namespace Dashboard

/-- ThresholdConfig rows as sensor_monitor.vue consumes them. -/
structure ThresholdConfig where
  sensor_name : String
  comparison_operator : String
  threshold_value : ℚ
  deriving DecidableEq, Repr

/-- getThresholdForSensor: thresholds.find of the first config whose
sensor_name matches. -/
def getThresholdForSensor (thresholds : List ThresholdConfig) (sensorName : String) :
    Option ThresholdConfig :=
  thresholds.find? fun t => t.sensor_name == sensorName

/-- checkThreshold from sensor_monitor.vue: false when no config matches,
otherwise the configured comparison applied to (value, threshold_value),
with "=" as exact equality and false for an unknown operator. -/
def checkThreshold (thresholds : List ThresholdConfig) (value : ℚ) (sensorName : String) :
    Bool :=
  match getThresholdForSensor thresholds sensorName with
  | none => false
  | some threshold =>
    if threshold.comparison_operator == ">" then
      decide (value > threshold.threshold_value)
    else if threshold.comparison_operator == "<" then
      decide (value < threshold.threshold_value)
    else if threshold.comparison_operator == ">=" then
      decide (value ≥ threshold.threshold_value)
    else if threshold.comparison_operator == "<=" then
      decide (value ≤ threshold.threshold_value)
    else if threshold.comparison_operator == "=" then
      decide (value = threshold.threshold_value)
    else
      false

end Dashboard

/-- A successful automatic MOVE response (thresholds not met). -/
def moveDoc : CloudDoc :=
  { success := true, mode := "automatic", command := "move", manual_position := 0
    thresholds_met := false, current_readings := none }

/-- A successful manual response targeting position p. -/
def manualDoc (p : Int) : CloudDoc :=
  { success := true, mode := "manual", command := "", manual_position := p
    thresholds_met := false, current_readings := none }

/-- A response whose success flag is false (the cloud reported an error). -/
def failDoc : CloudDoc :=
  { success := false, mode := "", command := "", manual_position := 0
    thresholds_met := false, current_readings := none }

/-- Clamp as the specification words it: clamp(x, lo, hi).  Used only to
compare the code against the specification sentence that mentions
clamping. -/
def specClamp (x lo hi : Int) : Int := max lo (min x hi)

/-- Whether a poll outcome is a successful manual-mode command, the case
that drives variant 1 into its manual branch. -/
def isManualCommand : Poll → Bool
  | .payload d => d.success && d.mode == "manual"
  | _ => false

/-- The sweep-state invariant maintained by automatic operation from cold
start: position within bounds and a multiple of 30. -/
def posInv (s : SweepState) : Prop :=
  0 ≤ s.currentPosition ∧ s.currentPosition ≤ 180 ∧ s.currentPosition % 30 = 0

/-- Relation between consecutive actuator states: the position is either
unchanged or moved by exactly 30 in one direction. -/
def posStep (a b : V1.State) : Prop :=
  b.sweep.currentPosition = a.sweep.currentPosition ∨
    b.sweep.currentPosition - a.sweep.currentPosition = 30 ∨
    a.sweep.currentPosition - b.sweep.currentPosition = 30

lemma moveToNextPosition_bounds (s : SweepState) (h : posInv s) :
    posInv (moveToNextPosition s).1 ∧
    ((moveToNextPosition s).1.currentPosition - s.currentPosition = 30 ∨
      s.currentPosition - (moveToNextPosition s).1.currentPosition = 30) := by
  obtain ⟨h0, h1, h2⟩ := h
  rcases s with ⟨p, ip, up⟩
  simp only [posInv] at *
  cases ip <;> cases up <;>
    simp only [moveToNextPosition] <;>
    split_ifs <;> simp_all <;> omega

/-- The manual branch of variant-1 parseCloudCommand: the state after a
successful manual command has mode "manual", position equal to the raw
manual_position, and every other field unchanged; a servo write happens
exactly when the target differs from the current position. -/
lemma manual_parse (s : V1.State) (d : CloudDoc) (hs : d.success = true)
    (hm : d.mode = "manual") :
    (V1.parseCloudCommand s (Poll.payload d)).1 =
      { currentMode := "manual"
        sweep := { s.sweep with currentPosition := d.manual_position }
        servoShouldMove := s.servoShouldMove } ∧
    (V1.parseCloudCommand s (Poll.payload d)).2 =
      (if d.manual_position = s.sweep.currentPosition then [] else [d.manual_position]) := by
  rcases s with ⟨m, ⟨pos, ip, up⟩, mv⟩
  simp only [V1.parseCloudCommand, hs, hm, if_true, beq_iff_eq]
  split_ifs with h1 h2 h2 <;> simp_all

/-- Claim C4: from the cold-start state (position 90, INITIAL_SWEEP,
should_move = true), six consecutive successful MOVE ticks of actuator
variant 1 visit the positions 90, 60, 30, 0, 30, 60 (reaching 90 on the
sixth tick), and isInitialPhase flips from true to false exactly at the
step from 0 to 30: it is true for the states before and through position
0 and false from the 30-after-0 state onward. -/
theorem C4_six_move_ticks :
    (V1.states V1.initState (List.replicate 6 (Poll.payload moveDoc))).map
        (fun s => s.sweep.currentPosition) = [90, 60, 30, 0, 30, 60, 90] ∧
    (V1.states V1.initState (List.replicate 6 (Poll.payload moveDoc))).map
        (fun s => s.sweep.isInitialPhase) =
      [true, true, true, true, false, false, false] := by
  decide

/-- Claim C3, counterexample: a successful manual command with
manual_position 200 drives the variant-1 state position to 200, not to
clamp(200, 0, 180) = 180 — parseCloudCommand stores the raw value with no
clamping. -/
theorem C3_counterexample :
    (V1.parseCloudCommand V1.initState (Poll.payload (manualDoc 200))).1.sweep.currentPosition
        = 200 ∧
    (V1.parseCloudCommand V1.initState (Poll.payload (manualDoc 200))).1.sweep.currentPosition
        ≠ specClamp 200 0 180 := by
  decide

/-- Claim C3, amended: for every state and every integer manual_position,
a successful MANUAL command sets the position to manual_position exactly
(unclamped), and leaves isInitialPhase, movingUp and servoShouldMove
unchanged. -/
theorem C3_manual_sets_raw_position (s : V1.State) (c : String) (mp : Int) (tm : Bool)
    (rd : Option Readings) :
    (V1.parseCloudCommand s (Poll.payload
        { success := true, mode := "manual", command := c, manual_position := mp
          thresholds_met := tm, current_readings := rd })).1 =
      { currentMode := "manual"
        sweep := { s.sweep with currentPosition := mp }
        servoShouldMove := s.servoShouldMove } :=
  (manual_parse s _ rfl rfl).1

/-- Claim C9: actuator variant 2 never reads the mode or manual_position
fields: two successful responses that differ only in those two fields
produce the same loop-tick result — identical state and identical servo
writes. -/
theorem C9_mode_independent (s : V2.State) (c : String) (tm : Bool) (rd : Option Readings)
    (m1 m2 : String) (p1 p2 : Int) :
    V2.tick s (Poll.payload
        { success := true, mode := m1, command := c, manual_position := p1
          thresholds_met := tm, current_readings := rd }) =
      V2.tick s (Poll.payload
        { success := true, mode := m2, command := c, manual_position := p2
          thresholds_met := tm, current_readings := rd }) :=
  rfl

/-- Claim C7, counterexample: for a sensor with no matching
ThresholdConfig, checkThreshold does yield a default boolean — it returns
false (the guard `if (!threshold) return false`), rather than excluding
the sensor. -/
theorem C7_counterexample :
    Dashboard.getThresholdForSensor [] "temperature" = none ∧
    Dashboard.checkThreshold [] 5 "temperature" = false := by
  exact ⟨rfl, rfl⟩

/-- Claim C7, amended: for every sensor name with no matching
ThresholdConfig, checkThreshold returns the default boolean false. -/
theorem C7_no_config_defaults_false (ths : List Dashboard.ThresholdConfig) (v : ℚ)
    (name : String) (h : Dashboard.getThresholdForSensor ths name = none) :
    Dashboard.checkThreshold ths v name = false := by
  simp [Dashboard.checkThreshold, h]

/-- Claim C7, witness for the amended theorem at a concrete input. -/
theorem C7_no_config_defaults_false_witness :
    Dashboard.checkThreshold [] (5 : ℚ) "gas" = false :=
  C7_no_config_defaults_false [] 5 "gas" rfl

/-- Claim C5, counterexample: a loop tick with a NaN temperature reading
(modelled as none) is not skipped — sendDataToCloud still publishes a
payload for that tick, carrying the invalid value that readSensors wrote
into the globals before the isnan check. -/
theorem C5_counterexample :
    (Sensor.step
        { temperature := some 25, humidity := some 50, mq2Value := 100
          isCalibrated := true, mq2Baseline := 120 }
        (Sensor.Action.tick none (some 55) 130)).2 =
      some { sensor_1 := none, sensor_2 := some 55, sensor_3 := 130 } ∧
    (Sensor.step
        { temperature := some 25, humidity := some 50, mq2Value := 100
          isCalibrated := true, mq2Baseline := 120 }
        (Sensor.Action.tick none (some 55) 130)).2 ≠ none := by
  exact ⟨rfl, by simp [Sensor.step, Sensor.readSensors, Sensor.sendDataToCloud]⟩

/-- Claim C5, amended: once calibrated, every loop tick publishes — the
DHT results (valid or NaN) are stored into the globals unconditionally and
sendDataToCloud posts exactly those stored values; no tick is skipped on
an invalid reading. -/
theorem C5_nan_tick_still_publishes (s : Sensor.State) (t h : Option ℚ) (g : Int)
    (hc : s.isCalibrated = true) :
    (Sensor.step s (Sensor.Action.tick t h g)).2 =
      some { sensor_1 := t, sensor_2 := h, sensor_3 := g } := by
  simp [Sensor.step, Sensor.readSensors, Sensor.sendDataToCloud, hc]

/-- Claim C5, witness for the amended theorem at a concrete input. -/
theorem C5_nan_tick_still_publishes_witness :
    (Sensor.step
        { temperature := some 1, humidity := some 2, mq2Value := 3
          isCalibrated := true, mq2Baseline := 4 }
        (Sensor.Action.tick none none 7)).2 =
      some { sensor_1 := none, sensor_2 := none, sensor_3 := 7 } :=
  C5_nan_tick_still_publishes _ none none 7 rfl

/-- Claim C2, counterexample: the two actuator firmware variants apply
different fallback policies on a transport error.  From a state with
should_move = false, variant 1 returns the state unchanged (hold, so it
does not force MOVE), while variant 2 forces should_move = true
(fail-open, so it does not hold) — a mixture of both policies across the
code paths of the repository. -/
theorem C2_counterexample :
    V1.checkCloudCommand
        { currentMode := "automatic"
          sweep := { currentPosition := 90, isInitialPhase := true, movingUp := true }
          servoShouldMove := false } Poll.transportError =
      ({ currentMode := "automatic"
         sweep := { currentPosition := 90, isInitialPhase := true, movingUp := true }
         servoShouldMove := false }, []) ∧
    (V2.checkCloudCommand
        { sweep := { currentPosition := 90, isInitialPhase := true, movingUp := true }
          servoShouldMove := false } Poll.transportError).servoShouldMove = true := by
  exact ⟨rfl, rfl⟩

/-- Claim C2, amended: each variant is internally consistent but they
implement different policies.  Variant 1 holds the previous state
unchanged (no state change, no servo write) on a transport error, on a
parse error, and on a non-success cloud response; variant 2
deterministically forces should_move = true on a transport error and on a
non-success cloud response. -/
theorem C2_divergent_fallback_policies :
    (∀ s : V1.State, V1.checkCloudCommand s Poll.transportError = (s, [])) ∧
    (∀ s : V1.State, V1.checkCloudCommand s Poll.parseError = (s, [])) ∧
    (∀ s : V1.State, ∀ d : CloudDoc, d.success = false →
      V1.checkCloudCommand s (Poll.payload d) = (s, [])) ∧
    (∀ s : V2.State, V2.checkCloudCommand s Poll.transportError =
      { s with servoShouldMove := true }) ∧
    (∀ s : V2.State, ∀ d : CloudDoc, d.success = false →
      V2.checkCloudCommand s (Poll.payload d) = { s with servoShouldMove := true }) := by
  refine ⟨fun s => rfl, fun s => rfl, fun s d hd => ?_, fun s => rfl, fun s d hd => ?_⟩
  · simp [V1.checkCloudCommand, V1.parseCloudCommand, hd]
  · simp [V2.checkCloudCommand, V2.parseCloudCommand, hd]

/-- Claim C2, witness for the amended theorem at concrete inputs. -/
theorem C2_divergent_fallback_policies_witness :
    V1.checkCloudCommand V1.initState (Poll.payload failDoc) = (V1.initState, []) ∧
    V2.checkCloudCommand V2.initState (Poll.payload failDoc) =
      { V2.initState with servoShouldMove := true } :=
  ⟨C2_divergent_fallback_policies.2.2.1 V1.initState failDoc rfl,
   C2_divergent_fallback_policies.2.2.2.2 V2.initState failDoc rfl⟩

/-- Claim C6: whenever a sensor has a matching ThresholdConfig,
checkThreshold returns exactly the mathematical relation between the value
and the configured threshold for each of the five operators, with "="
as exact equality of the numeric values (no epsilon tolerance). -/
theorem C6_operator_semantics (ths : List Dashboard.ThresholdConfig) (name : String)
    (v : ℚ) (cfg : Dashboard.ThresholdConfig)
    (h : Dashboard.getThresholdForSensor ths name = some cfg) :
    (cfg.comparison_operator = ">" →
      (Dashboard.checkThreshold ths v name = true ↔ v > cfg.threshold_value)) ∧
    (cfg.comparison_operator = "<" →
      (Dashboard.checkThreshold ths v name = true ↔ v < cfg.threshold_value)) ∧
    (cfg.comparison_operator = ">=" →
      (Dashboard.checkThreshold ths v name = true ↔ v ≥ cfg.threshold_value)) ∧
    (cfg.comparison_operator = "<=" →
      (Dashboard.checkThreshold ths v name = true ↔ v ≤ cfg.threshold_value)) ∧
    (cfg.comparison_operator = "=" →
      (Dashboard.checkThreshold ths v name = true ↔ v = cfg.threshold_value)) := by
  unfold Dashboard.checkThreshold
  rw [h]
  refine ⟨fun hop => ?_, fun hop => ?_, fun hop => ?_, fun hop => ?_, fun hop => ?_⟩ <;>
    simp [hop]

/-- Claim C6, witness for the amended theorem at concrete inputs: a
single configured temperature threshold with the ">" operator. -/
theorem C6_operator_semantics_witness :
    Dashboard.checkThreshold
        [{ sensor_name := "temperature", comparison_operator := ">", threshold_value := 30 }]
        31 "temperature" = true ↔ (31 : ℚ) > 30 :=
  (C6_operator_semantics
      [{ sensor_name := "temperature", comparison_operator := ">", threshold_value := 30 }]
      "temperature" 31
      { sensor_name := "temperature", comparison_operator := ">", threshold_value := 30 }
      rfl).1 rfl

/-- Claim C8: two consecutive successful MANUAL commands with the same
manual_position leave the position unchanged after the second command, and
the second command performs no servo write. -/
theorem C8_manual_idempotent (s : V1.State) (d : CloudDoc) (hs : d.success = true)
    (hm : d.mode = "manual") (_h0 : 0 ≤ d.manual_position) (_h1 : d.manual_position ≤ 180) :
    (V1.checkCloudCommand (V1.checkCloudCommand s (Poll.payload d)).1
        (Poll.payload d)).1.sweep.currentPosition =
      (V1.checkCloudCommand s (Poll.payload d)).1.sweep.currentPosition ∧
    (V1.checkCloudCommand (V1.checkCloudCommand s (Poll.payload d)).1 (Poll.payload d)).2
      = [] := by
  obtain ⟨hA, _⟩ := manual_parse s d hs hm
  obtain ⟨hB, hwB⟩ := manual_parse (V1.parseCloudCommand s (Poll.payload d)).1 d hs hm
  constructor
  · show (V1.parseCloudCommand (V1.parseCloudCommand s (Poll.payload d)).1
        (Poll.payload d)).1.sweep.currentPosition =
      (V1.parseCloudCommand s (Poll.payload d)).1.sweep.currentPosition
    rw [hB, hA]
  · show (V1.parseCloudCommand (V1.parseCloudCommand s (Poll.payload d)).1
        (Poll.payload d)).2 = []
    rw [hwB, hA]
    simp

/-- Claim C8, witness at a concrete input: two manual commands to 45 from
cold start. -/
theorem C8_manual_idempotent_witness :
    (V1.checkCloudCommand (V1.checkCloudCommand V1.initState
        (Poll.payload (manualDoc 45))).1
        (Poll.payload (manualDoc 45))).1.sweep.currentPosition =
      (V1.checkCloudCommand V1.initState
        (Poll.payload (manualDoc 45))).1.sweep.currentPosition ∧
    (V1.checkCloudCommand (V1.checkCloudCommand V1.initState
        (Poll.payload (manualDoc 45))).1 (Poll.payload (manualDoc 45))).2 = [] :=
  C8_manual_idempotent V1.initState (manualDoc 45) rfl rfl (by decide) (by decide)

lemma run_uncalibrated (s : Sensor.State) (hs : s.isCalibrated = false)
    (acts : List Sensor.Action) (h : ∀ a ∈ acts, a.isCalibrate = false) :
    (Sensor.run s acts).2 = [] := by
  induction acts generalizing s with
  | nil => rfl
  | cons a rest ih =>
    have htail : ∀ x ∈ rest, x.isCalibrate = false :=
      fun x hx => h x (List.mem_cons_of_mem _ hx)
    cases a with
    | tick t hq g =>
      have hstep : (Sensor.step s (.tick t hq g)).2 = none := by
        simp [Sensor.step, Sensor.readSensors, Sensor.sendDataToCloud, hs]
      have hcal : (Sensor.step s (.tick t hq g)).1.isCalibrated = false := by
        simp [Sensor.step, Sensor.readSensors, hs]
      simp [Sensor.run, hstep, ih _ hcal htail]
    | calibrate samples =>
      have := h _ (List.mem_cons_self _ _)
      simp [Sensor.Action.isCalibrate] at this

/-- Claim C10: the sensor node never publishes before MQ2 calibration
completes — sendDataToCloud performs no send while isCalibrated is false,
the cold-start state is uncalibrated, only calibrateSensors (which
averages the warm-up samples into mq2Baseline) sets isCalibrated, and any
run from cold start containing no calibrateSensors call publishes
nothing. -/
theorem C10_no_publish_before_calibration :
    (∀ s : Sensor.State, s.isCalibrated = false → Sensor.sendDataToCloud s = none) ∧
    Sensor.initState.isCalibrated = false ∧
    (∀ (s : Sensor.State) (samples : List Int),
      (Sensor.calibrateSensors s samples).isCalibrated = true ∧
      (Sensor.calibrateSensors s samples).mq2Baseline =
        ((samples.sum : Int) : ℚ) / (samples.length : ℚ)) ∧
    (∀ acts : List Sensor.Action, (∀ a ∈ acts, a.isCalibrate = false) →
      (Sensor.run Sensor.initState acts).2 = []) := by
  refine ⟨fun s hs => ?_, rfl, fun s samples => ⟨rfl, rfl⟩,
    fun acts h => run_uncalibrated Sensor.initState rfl acts h⟩
  simp [Sensor.sendDataToCloud, hs]

/-- Claim C10, witness: two uncalibrated loop ticks publish nothing. -/
theorem C10_no_publish_before_calibration_witness :
    (Sensor.run Sensor.initState
      [Sensor.Action.tick (some 1) (some 2) 3,
       Sensor.Action.tick none none 4]).2 = [] :=
  C10_no_publish_before_calibration.2.2.2
    [Sensor.Action.tick (some 1) (some 2) 3, Sensor.Action.tick none none 4]
    (by decide)

/-- On a successful non-manual response, a variant-1 tick either leaves
the sweep state untouched or advances it by one moveToNextPosition step. -/
lemma auto_parse_sweep (s : V1.State) (d : CloudDoc) (hs : d.success = true)
    (hm : (d.mode == "manual") = false) :
    (V1.parseCloudCommand s (Poll.payload d)).1.sweep = s.sweep ∨
      (V1.parseCloudCommand s (Poll.payload d)).1.sweep = (moveToNextPosition s.sweep).1 := by
  simp only [V1.parseCloudCommand, hs, hm, if_true, Bool.false_eq_true, if_false]
  split_ifs <;> simp

/-- A variant-1 tick driven by any non-manual poll outcome preserves the
position invariant, and changes the position by 0 or by exactly 30. -/
lemma tick_posInv (s : V1.State) (p : Poll) (hp : isManualCommand p = false)
    (h : posInv s.sweep) : posInv (V1.tick s p).sweep ∧ posStep s (V1.tick s p) := by
  cases p with
  | transportError => exact ⟨h, Or.inl rfl⟩
  | parseError => exact ⟨h, Or.inl rfl⟩
  | payload d =>
    by_cases hs : d.success = true
    · have hm : (d.mode == "manual") = false := by
        simpa [isManualCommand, hs] using hp
      have hsw := auto_parse_sweep s d hs hm
      have htick : V1.tick s (Poll.payload d) =
          (V1.parseCloudCommand s (Poll.payload d)).1 := rfl
      rw [htick]
      simp only [posStep]
      rcases hsw with hsw | hsw
      · rw [hsw]
        exact ⟨h, Or.inl rfl⟩
      · rw [hsw]
        obtain ⟨hinv, hdiff⟩ := moveToNextPosition_bounds s.sweep h
        exact ⟨hinv, Or.inr hdiff⟩
    · have htick : V1.tick s (Poll.payload d) = s := by
        simp only [V1.tick, V1.checkCloudCommand, V1.parseCloudCommand]
        simp [hs]
      rw [htick]
      exact ⟨h, Or.inl rfl⟩

/-- Every state visited from a posInv-satisfying start under non-manual
poll outcomes satisfies posInv, and consecutive states are related by
posStep. -/
lemma states_inv (s0 : V1.State) (cmds : List Poll) (h0 : posInv s0.sweep)
    (h : ∀ c ∈ cmds, isManualCommand c = false) :
    (∀ s ∈ V1.states s0 cmds, posInv s.sweep) ∧ (V1.states s0 cmds).Chain' posStep := by
  induction cmds generalizing s0 with
  | nil =>
    refine ⟨fun s hsmem => ?_, by simp [V1.states]⟩
    simp only [V1.states, List.scanl] at hsmem
    simp only [List.mem_singleton] at hsmem
    exact hsmem ▸ h0
  | cons c cs ih =>
    have hc : isManualCommand c = false := h c (List.mem_cons_self _ _)
    have htail : ∀ x ∈ cs, isManualCommand x = false :=
      fun x hx => h x (List.mem_cons_of_mem _ hx)
    obtain ⟨hinv1, hstep1⟩ := tick_posInv s0 c hc h0
    obtain ⟨ihmem, ihchain⟩ := ih (V1.tick s0 c) hinv1 htail
    have hunf : V1.states s0 (c :: cs) = s0 :: V1.states (V1.tick s0 c) cs := rfl
    obtain ⟨t, ht⟩ : ∃ t, V1.states (V1.tick s0 c) cs = V1.tick s0 c :: t := by
      cases cs <;> exact ⟨_, rfl⟩
    constructor
    · intro s hsmem
      rw [hunf] at hsmem
      rcases List.mem_cons.mp hsmem with rfl | hs2
      · exact h0
      · exact ihmem s hs2
    · rw [hunf, ht]
      rw [ht] at ihchain
      exact List.chain'_cons.mpr ⟨hstep1, ihchain⟩

/-- Claim C1, counterexample: processing the command sequence consisting
of the single successful manual command with manual_position 200 from the
cold-start state leaves the position at 200, outside [0,180] — the manual
path stores the raw target with no clamping, so the claimed invariant
fails for sequences containing manual commands. -/
theorem C1_counterexample :
    (V1.run V1.initState [Poll.payload (manualDoc 200)]).1.sweep.currentPosition = 200 ∧
    ¬ (V1.run V1.initState [Poll.payload (manualDoc 200)]).1.sweep.currentPosition ≤ 180 := by
  decide

/-- Claim C1, amended: for every sequence of non-manual poll outcomes
processed by actuator variant 1 from the cold-start state, the position
stays in [0,180] after every step, and every position change has magnitude
exactly 30 (the boundary clamps never bite because positions stay
multiples of 30). -/
theorem C1_automatic_bounds (cmds : List Poll)
    (h : ∀ c ∈ cmds, isManualCommand c = false) :
    (∀ s ∈ V1.states V1.initState cmds,
      0 ≤ s.sweep.currentPosition ∧ s.sweep.currentPosition ≤ 180) ∧
    (V1.states V1.initState cmds).Chain' posStep := by
  obtain ⟨hmem, hchain⟩ :=
    states_inv V1.initState cmds (by refine ⟨?_, ?_, ?_⟩ <;> decide) h
  exact ⟨fun s hs => ⟨(hmem s hs).1, (hmem s hs).2.1⟩, hchain⟩

/-- Claim C1, witness for the amended theorem: a two-command automatic
run (one MOVE, one cloud-error response). -/
theorem C1_automatic_bounds_witness :
    (∀ s ∈ V1.states V1.initState [Poll.payload moveDoc, Poll.payload failDoc],
      0 ≤ s.sweep.currentPosition ∧ s.sweep.currentPosition ≤ 180) ∧
    (V1.states V1.initState [Poll.payload moveDoc, Poll.payload failDoc]).Chain' posStep :=
  C1_automatic_bounds [Poll.payload moveDoc, Poll.payload failDoc] (by decide)

end FireSafe
